import Mathlib

/-!
# Eco-Grid Sentinel firmware: shallow embedding

This file embeds the two sensor-firmware variants of the Eco-Grid Sentinel
repository:

* `ProdNode` models `src/unnamed/part_002` ("PRODUCTION SENSOR NODE"): a
  30-second monitoring loop with an FFT voting system, heartbeat on cold
  boot, and a 4-field LoRa payload (millis, node id, type, battery volts).
* `FirmV2` models `src/firmware/EcoSentinel_Firmware.ino` ("V2.0"): a
  vibration short-circuit path (CLIMBING), a single-window audio
  classification, no cold-boot transmission, and a 2-field LoRa payload.

Analog readings and spectral magnitudes are modelled as rationals.  The
arduinoFFT library calls (`windowing`, `compute`, `complexToMagnitude`) are
external library code (not part of this repository), so they are modelled
as an arbitrary triple of pure maps bundled in `FFTStages`; everything the
repository itself computes (band sums, votes, verdicts, packets, control
flow) is embedded concretely from the source.
-/

namespace EcoGrid

/-- Fields of a LoRa payload.  `part_002` builds
`String(millis()) + "," + NODE_ID + "," + type + "," + String(volts,1)+"V"`;
the `.ino` builds `NODE_ID + "," + type`.  Each comma-delimited component is
modelled as one tagged field. -/
inductive Field where
  | counter (ms : ℕ)
  | node (id : String)
  | tag (t : String)
  | battery (volts : ℚ)
deriving DecidableEq, Repr

def Field.isCounter : Field → Bool
  | Field.counter _ => true
  | _ => false

def Field.isNode : Field → Bool
  | Field.node _ => true
  | _ => false

def Field.isTag : Field → Bool
  | Field.tag _ => true
  | _ => false

def Field.isBattery : Field → Bool
  | Field.battery _ => true
  | _ => false

/-- A radio frame: the ordered comma-delimited fields of one LoRa payload. -/
structure Packet where
  fields : List Field
deriving DecidableEq, Repr

/-- The verdict strings carried in a packet's `tag` fields. -/
def Packet.tags (p : Packet) : List String :=
  p.fields.filterMap fun f =>
    match f with
    | Field.tag t => some t
    | _ => none

/-- Power states of the device (spec section 4.4). -/
inductive PowerState where
  | DORMANT
  | BOOTING
  | MONITORING
  | TRANSMITTING
deriving DecidableEq, Repr

/-- Why the device woke: `ESP_SLEEP_WAKEUP_EXT0` (piezo vibration on pin 33)
versus any other cause (power-on / reset, i.e. a cold boot). -/
inductive WakeCause where
  | ext0
  | coldBoot
deriving DecidableEq, Repr

/-- `SAMPLES` = 512 in both firmware variants. -/
def SAMPLES : ℕ := 512

/-- `SAMPLING_FREQ` = 6000 Hz in both firmware variants. -/
def SAMPLING_FREQ : ℕ := 6000

/-- Lower edge frequency of transform bin `i`: `i * F / N` Hz. -/
def bin_freq (i : ℕ) : ℚ := (i : ℚ) * (SAMPLING_FREQ : ℚ) / (SAMPLES : ℚ)

/-- Low-band ("engine rumble") energy: both variants run
`for (int i = 8; i < 51; i++) engine_energy += vReal[i];`
i.e. the sum over bin indices `8 ≤ i < 51`. -/
def engine_energy (vReal : ℕ → ℚ) : ℚ :=
  (Finset.Ico 8 51).sum fun i => vReal i

/-- High-band ("nature/wind") energy: both variants run
`for (int i = 170; i < 256; i++) nature_energy += vReal[i];`
(`SAMPLES/2 = 256` in the `.ino`), i.e. the sum over `170 ≤ i < 256`. -/
def nature_energy (vReal : ℕ → ℚ) : ℚ :=
  (Finset.Ico 170 256).sum fun i => vReal i

/-- The three arduinoFFT library stages called by both variants.  The library
is external to the repository; each stage is an arbitrary pure map over the
buffers, as the spec describes (windowing, forward transform, magnitude
reduction). -/
structure FFTStages where
  windowing : (ℕ → ℚ) → (ℕ → ℚ)
  compute : (ℕ → ℚ) → (ℕ → ℚ) → ((ℕ → ℚ) × (ℕ → ℚ))
  complexToMagnitude : (ℕ → ℚ) → (ℕ → ℚ) → (ℕ → ℚ)

/-- A trivial concrete instance of the library stages, used to evaluate the
pipeline on explicit inputs (identity windowing/transform; the magnitude
stage returns the real part). -/
def idStages : FFTStages where
  windowing := id
  compute := fun vr vi => (vr, vi)
  complexToMagnitude := fun vr _ => vr

/-- The energy profile one analysis window computes from a freshly sampled
buffer `mic`: the source sets `vReal[i] = analogRead(MIC_PIN)`, `vImag[i]=0`,
runs the three FFT stages in place, then sums the two bands over `vReal`. -/
def window_profile (L : FFTStages) (mic : ℕ → ℚ) : ℚ × ℚ :=
  let w := L.windowing mic
  let p := L.compute w fun _ => 0
  let m := L.complexToMagnitude p.1 p.2
  (engine_energy m, nature_energy m)

/-- Concrete mic buffer: no signal at all. -/
def mic_zero : ℕ → ℚ := fun _ => 0

/-- Concrete mic buffer: strong low-band content (magnitude 2000 in every bin
below 60), silence above. -/
def mic_low : ℕ → ℚ := fun i => if i < 60 then 2000 else 0

namespace ProdNode

/-- `const String NODE_ID = "NODE_A";` in `part_002`. -/
def NODE_ID : String := "NODE_A"

/-- Global mutable device state of `part_002`: the FFT buffers `vReal`,
`vImag` and the local counters of `run_ai_analysis`. -/
structure DeviceState where
  vReal : ℕ → ℚ
  vImag : ℕ → ℚ
  chainsaw_votes : ℕ
  wind_votes : ℕ
  total_samples : ℕ

/-- A concrete initial device state (all buffers and counters zero). -/
def s_init : DeviceState where
  vReal := fun _ => 0
  vImag := fun _ => 0
  chainsaw_votes := 0
  wind_votes := 0
  total_samples := 0

/-- Step A of one window: `vReal[i] = analogRead(MIC_PIN); vImag[i] = 0;`. -/
def sample_audio (mic : ℕ → ℚ) (s : DeviceState) : DeviceState :=
  { s with vReal := mic, vImag := fun _ => 0 }

/-- Steps B and C of one window: run the three arduinoFFT stages in place on
the buffers, then sum the two energy bands over the magnitude buffer. -/
def analyze_window (L : FFTStages) (s : DeviceState) : DeviceState × (ℚ × ℚ) :=
  let w := L.windowing s.vReal
  let p := L.compute w s.vImag
  let m := L.complexToMagnitude p.1 p.2
  ({ s with vReal := m, vImag := p.2 },
   (engine_energy m, nature_energy m))

/-- Step D of one window, `part_002`:
`if (engine_energy > 50000 && engine_energy > (nature_energy * 2))
   chainsaw_votes++;
 else if (nature_energy > engine_energy) wind_votes++;
 total_samples++;` -/
def vote_update (s : DeviceState) (e : ℚ × ℚ) : DeviceState :=
  let s1 :=
    if e.1 > 50000 ∧ e.1 > e.2 * 2 then
      { s with chainsaw_votes := s.chainsaw_votes + 1 }
    else if e.2 > e.1 then
      { s with wind_votes := s.wind_votes + 1 }
    else s
  { s1 with total_samples := s1.total_samples + 1 }

/-- Whether one window, sampled from `mic`, casts a chainsaw vote. -/
def positive_window (L : FFTStages) (mic : ℕ → ℚ) : Bool :=
  let e := window_profile L mic
  decide (e.1 > 50000 ∧ e.1 > e.2 * 2)

/-- The `while (millis() - start_time < duration)` loop of
`run_ai_analysis`: each iteration samples one buffer, analyzes it, and
updates the vote counters.  The list `mics` holds the successive microphone
buffers captured during the 30-second window. -/
def monitor_loop (L : FFTStages) : List (ℕ → ℚ) → DeviceState → DeviceState
  | [], s => s
  | mic :: rest, s =>
      let s1 := sample_audio mic s
      let se := analyze_window L s1
      monitor_loop L rest (vote_update se.1 se.2)

/-- `float battery_volts = (analogRead(BAT_PIN) / 4095.0) * 3.3 * 2;`
(`raw` is the 12-bit ADC reading). -/
def battery_volts (raw : ℕ) : ℚ := ((raw : ℚ) / 4095) * (33 / 10) * 2

/-- `send_packet` of `part_002`: payload
`String(millis()) + "," + NODE_ID + "," + type + "," + String(volts,1)+"V"`. -/
def send_packet (ms bat : ℕ) (t : String) : Packet :=
  { fields := [Field.counter ms, Field.node NODE_ID, Field.tag t,
               Field.battery (battery_volts bat)] }

/-- `run_ai_analysis` of `part_002`: local counters start at zero, the
30-second loop accumulates votes, then the final verdict is transmitted —
`CHAINSAW` if `chainsaw_votes > total_samples * 0.15`, else `TREE_FALL`.
Returns the final device state and the single transmitted packet. -/
def run_ai_analysis (L : FFTStages) (mics : List (ℕ → ℚ)) (s : DeviceState)
    (ms bat : ℕ) : DeviceState × Packet :=
  let s0 : DeviceState :=
    { s with chainsaw_votes := 0, wind_votes := 0, total_samples := 0 }
  let s1 := monitor_loop L mics s0
  let t : String :=
    if (s1.chainsaw_votes : ℚ) > (s1.total_samples : ℚ) * (15 / 100) then
      "CHAINSAW"
    else
      "TREE_FALL"
  (s1, send_packet ms bat t)

/-- Outcome of one boot cycle (wake episode) of `part_002`. -/
structure EpisodeResult where
  halted : Bool
  sent : List Packet
  ran_audio : Bool
  trace : List PowerState
deriving DecidableEq, Repr

/-- `setup` of `part_002`: LoRa init first (`while(1)` halt on failure),
then the wake cause decides between the 30-second AI analysis (EXT0 wake)
and a single HEARTBEAT (any other boot); finally `go_to_sleep()`. -/
def setup (L : FFTStages) (loraOk : Bool) (wake : WakeCause)
    (mics : List (ℕ → ℚ)) (s : DeviceState) (ms bat : ℕ) : EpisodeResult :=
  if !loraOk then
    { halted := true, sent := [], ran_audio := false,
      trace := [PowerState.BOOTING] }
  else
    match wake with
    | WakeCause.ext0 =>
        { halted := false,
          sent := [(run_ai_analysis L mics s ms bat).2],
          ran_audio := true,
          trace := [PowerState.BOOTING, PowerState.MONITORING,
                    PowerState.TRANSMITTING, PowerState.DORMANT] }
    | WakeCause.coldBoot =>
        { halted := false,
          sent := [send_packet ms bat "HEARTBEAT"],
          ran_audio := false,
          trace := [PowerState.BOOTING, PowerState.TRANSMITTING,
                    PowerState.DORMANT] }

end ProdNode

namespace FirmV2

/-- `const String NODE_ID = "NODE_A";` in the `.ino`. -/
def NODE_ID : String := "NODE_A"

/-- `#define IS_GATEWAY false` (sensor role). -/
def IS_GATEWAY : Bool := false

/-- `send_lora_alert` of the `.ino`: payload `NODE_ID + "," + type`. -/
def send_lora_alert (t : String) : Packet :=
  { fields := [Field.node NODE_ID, Field.tag t] }

/-- The vibration window: `for(i=0; i<100; i++) if(digitalRead(PIEZO)==HIGH)
hits++;` — count of active reads among the 100 piezo reads. -/
def climb_hits (reads : Fin 100 → Bool) : ℕ :=
  (List.ofFn reads).countP fun b => b

/-- Outcome of one boot cycle of the `.ino` sensor role. -/
structure V2Result where
  sent : List Packet
  ran_audio : Bool
  halted : Bool
deriving DecidableEq, Repr

/-- Section B of `analyze_environment`: single audio window, then
`ratio = engine_energy / (nature_energy + 1);` and
`if (ratio > 2.0 && engine_energy > 50000)` send CHAINSAW, else only log
SAFE (no transmission). -/
def audio_path (mic : ℕ → ℚ) (L : FFTStages) : V2Result :=
  let e := window_profile L mic
  if e.1 / (e.2 + 1) > 2 ∧ e.1 > 50000 then
    { sent := [send_lora_alert "CHAINSAW"], ran_audio := true, halted := false }
  else
    { sent := [], ran_audio := true, halted := false }

/-- `analyze_environment` of the `.ino`: the vibration path runs first and,
on `hits > 5`, sends CLIMBING and goes straight to deep sleep (the audio
sampler and FFT are never reached); otherwise the audio path runs. -/
def analyze_environment (vibrationTriggered : Bool) (reads : Fin 100 → Bool)
    (mic : ℕ → ℚ) (L : FFTStages) : V2Result :=
  if vibrationTriggered ∧ climb_hits reads > 5 then
    { sent := [send_lora_alert "CLIMBING"], ran_audio := false, halted := false }
  else
    audio_path mic L

/-- `setup` of the `.ino` (sensor role): LoRa init first (`while(1)` halt on
failure); an EXT0 wake sets `vibrationTriggered` and runs
`analyze_environment`; any other boot only logs and goes back to sleep. -/
def setup (loraOk : Bool) (wake : WakeCause) (reads : Fin 100 → Bool)
    (mic : ℕ → ℚ) (L : FFTStages) : V2Result :=
  if !loraOk then
    { sent := [], ran_audio := false, halted := true }
  else if IS_GATEWAY then
    { sent := [], ran_audio := false, halted := false }
  else
    match wake with
    | WakeCause.ext0 => analyze_environment true reads mic L
    | WakeCause.coldBoot => { sent := [], ran_audio := false, halted := false }

/-- Concrete vibration window: no active reads. -/
def reads_none : Fin 100 → Bool := fun _ => false

/-- Concrete vibration window: exactly 6 active reads out of 100. -/
def reads_six : Fin 100 → Bool := fun i => decide (i.val < 6)

end FirmV2

/-- Modelled from the spec: a band defined as "100–600 Hz" must map to bins
8–51 *inclusive*, so the spec's low-band energy is the sum of bin magnitudes
over every bin index `i` with `8 ≤ i ≤ 51`.  (The code's own comment — bins
8 to 51 — agrees; only the loop bound differs.) -/
def low_band_energy_spec (vReal : ℕ → ℚ) : ℚ :=
  (Finset.Icc 8 51).sum fun i => vReal i

/-- Concrete magnitude buffer holding 100 in bin 51 and 0 everywhere else. -/
def bin51_buf : ℕ → ℚ := fun i => if i = 51 then 100 else 0

/-- Concrete monitoring episode: 100 windows, 16 of them chainsaw-positive. -/
def mics100_16 : List (ℕ → ℚ) :=
  List.replicate 16 mic_low ++ List.replicate 84 mic_zero

/-- Concrete monitoring episode: 100 windows, 14 of them chainsaw-positive. -/
def mics100_14 : List (ℕ → ℚ) :=
  List.replicate 14 mic_low ++ List.replicate 86 mic_zero

/-! ## Helper lemmas -/

lemma countP_replicate' {α : Type} (p : α → Bool) (n : ℕ) (a : α) :
    (List.replicate n a).countP p = if p a then n else 0 := by
  induction n with
  | zero => simp
  | succ k ih =>
      rw [List.replicate_succ, List.countP_cons, ih]
      by_cases hp : p a <;> simp [hp]

lemma engine_mic_low : engine_energy mic_low = 86000 := by
  unfold engine_energy mic_low
  rw [Finset.sum_congr rfl fun i hi => if_pos
    (Nat.lt_of_lt_of_le (Finset.mem_Ico.mp hi).2 (by norm_num))]
  rw [Finset.sum_const, Nat.card_Ico]
  norm_num

lemma nature_mic_low : nature_energy mic_low = 0 := by
  unfold nature_energy mic_low
  exact Finset.sum_eq_zero fun i hi =>
    if_neg (by have := (Finset.mem_Ico.mp hi).1; omega)

lemma engine_mic_zero : engine_energy mic_zero = 0 := by
  unfold engine_energy mic_zero
  exact Finset.sum_eq_zero fun i _ => rfl

lemma nature_mic_zero : nature_energy mic_zero = 0 := by
  unfold nature_energy mic_zero
  exact Finset.sum_eq_zero fun i _ => rfl

lemma window_profile_id (mic : ℕ → ℚ) :
    window_profile idStages mic = (engine_energy mic, nature_energy mic) := rfl

lemma positive_low : ProdNode.positive_window idStages mic_low = true := by
  simp only [ProdNode.positive_window, window_profile_id, engine_mic_low,
    nature_mic_low, decide_eq_true_eq]
  norm_num

lemma positive_zero : ProdNode.positive_window idStages mic_zero = false := by
  simp only [ProdNode.positive_window, window_profile_id, engine_mic_zero,
    nature_mic_zero, decide_eq_false_iff_not]
  norm_num

lemma count_16 : mics100_16.countP (ProdNode.positive_window idStages) = 16 := by
  unfold mics100_16
  rw [List.countP_append, countP_replicate', countP_replicate',
    positive_low, positive_zero]
  simp

lemma len_16 : mics100_16.length = 100 := by simp [mics100_16]

lemma count_14 : mics100_14.countP (ProdNode.positive_window idStages) = 14 := by
  unfold mics100_14
  rw [List.countP_append, countP_replicate', countP_replicate',
    positive_low, positive_zero]
  simp

lemma len_14 : mics100_14.length = 100 := by simp [mics100_14]

namespace ProdNode

lemma vote_update_counts (s : DeviceState) (e : ℚ × ℚ) :
    (vote_update s e).chainsaw_votes
        = s.chainsaw_votes + (if e.1 > 50000 ∧ e.1 > e.2 * 2 then 1 else 0) ∧
      (vote_update s e).total_samples = s.total_samples + 1 := by
  unfold vote_update
  by_cases h : e.1 > 50000 ∧ e.1 > e.2 * 2
  · simp [h]
  · by_cases h2 : e.2 > e.1 <;> simp [h, h2]

lemma analyze_sample_profile (L : FFTStages) (mic : ℕ → ℚ) (s : DeviceState) :
    (analyze_window L (sample_audio mic s)).2 = window_profile L mic := rfl

lemma monitor_loop_counts (L : FFTStages) (mics : List (ℕ → ℚ)) (s : DeviceState) :
    (monitor_loop L mics s).chainsaw_votes
        = s.chainsaw_votes + mics.countP (positive_window L) ∧
      (monitor_loop L mics s).total_samples = s.total_samples + mics.length := by
  induction mics generalizing s with
  | nil => simp [monitor_loop]
  | cons m rest ih =>
      have hstep := ih (vote_update (analyze_window L (sample_audio m s)).1
        (analyze_window L (sample_audio m s)).2)
      have hv := vote_update_counts (analyze_window L (sample_audio m s)).1
        (analyze_window L (sample_audio m s)).2
      rw [analyze_sample_profile] at hv
      rw [show (analyze_window L (sample_audio m s)).1.chainsaw_votes
            = s.chainsaw_votes from rfl,
        show (analyze_window L (sample_audio m s)).1.total_samples
            = s.total_samples from rfl] at hv
      have hred : monitor_loop L (m :: rest) s = monitor_loop L rest
          (vote_update (analyze_window L (sample_audio m s)).1
            (analyze_window L (sample_audio m s)).2) := rfl
      constructor
      · rw [hred, hstep.1, analyze_sample_profile, hv.1, List.countP_cons]
        simp only [positive_window, decide_eq_true_eq]
        by_cases hc : (window_profile L m).1 > 50000 ∧
            (window_profile L m).1 > (window_profile L m).2 * 2
        · simp [hc]; omega
        · simp [hc]
      · rw [hred, hstep.2, analyze_sample_profile, hv.2, List.length_cons]
        omega

lemma run_ai_analysis_packet (L : FFTStages) (mics : List (ℕ → ℚ))
    (s : DeviceState) (ms bat : ℕ) :
    (run_ai_analysis L mics s ms bat).2 = send_packet ms bat
      (if (mics.countP (positive_window L) : ℚ) > (mics.length : ℚ) * (15 / 100)
        then "CHAINSAW" else "TREE_FALL") := by
  have h := monitor_loop_counts L mics
    { s with chainsaw_votes := 0, wind_votes := 0, total_samples := 0 }
  simp only at h
  rw [show (run_ai_analysis L mics s ms bat).2 = send_packet ms bat
      (if ((monitor_loop L mics { s with chainsaw_votes := 0, wind_votes := 0, total_samples := 0 }).chainsaw_votes : ℚ)
          > ((monitor_loop L mics { s with chainsaw_votes := 0, wind_votes := 0, total_samples := 0 }).total_samples : ℚ) * (15 / 100)
        then "CHAINSAW" else "TREE_FALL") from rfl]
  rw [h.1, h.2]
  simp

lemma tags_send_packet (ms bat : ℕ) (t : String) :
    (send_packet ms bat t).tags = [t] := rfl

end ProdNode

namespace FirmV2

lemma analyze_cases (vib : Bool) (reads : Fin 100 → Bool) (mic : ℕ → ℚ)
    (L : FFTStages) :
    analyze_environment vib reads mic L =
        { sent := [send_lora_alert "CLIMBING"], ran_audio := false,
          halted := false } ∨
      analyze_environment vib reads mic L =
        { sent := [send_lora_alert "CHAINSAW"], ran_audio := true,
          halted := false } ∨
      analyze_environment vib reads mic L =
        { sent := [], ran_audio := true, halted := false } := by
  by_cases h1 : vib = true ∧ climb_hits reads > 5
  · exact Or.inl (by simp [analyze_environment, h1])
  · by_cases h2 : (window_profile L mic).1 / ((window_profile L mic).2 + 1) > 2
        ∧ (window_profile L mic).1 > 50000
    · exact Or.inr (Or.inl (by simp [analyze_environment, audio_path, h1, h2]))
    · exact Or.inr (Or.inr (by simp [analyze_environment, audio_path, h1, h2]))

end FirmV2

/-! ## Claims -/

/-- C1: for every monitoring episode of the voting classifier (`part_002`),
the transmitted verdict is CHAINSAW exactly when the number of chainsaw
votes exceeds 15% of the total windows; in particular, with 100 windows, 16
positive windows yield CHAINSAW and 14 positive windows yield the
non-CHAINSAW verdict TREE_FALL. -/
theorem C1_voting_threshold (L : FFTStages) (mics : List (ℕ → ℚ))
    (s : ProdNode.DeviceState) (ms bat : ℕ) :
    ((ProdNode.run_ai_analysis L mics s ms bat).2.tags = ["CHAINSAW"] ↔
      (mics.countP (ProdNode.positive_window L) : ℚ)
        > (mics.length : ℚ) * (15 / 100)) ∧
    (ProdNode.run_ai_analysis idStages mics100_16 ProdNode.s_init 0 0).2.tags
      = ["CHAINSAW"] ∧
    (ProdNode.run_ai_analysis idStages mics100_14 ProdNode.s_init 0 0).2.tags
      = ["TREE_FALL"] := by
  refine ⟨?_, ?_, ?_⟩
  · rw [ProdNode.run_ai_analysis_packet]
    by_cases h : (mics.countP (ProdNode.positive_window L) : ℚ)
        > (mics.length : ℚ) * (15 / 100)
    · rw [if_pos h, ProdNode.tags_send_packet]
      simp [h]
    · rw [if_neg h, ProdNode.tags_send_packet]
      simp [h]
  · have h16 : (mics100_16.countP (ProdNode.positive_window idStages) : ℚ)
        > (mics100_16.length : ℚ) * (15 / 100) := by
      rw [count_16, len_16]; norm_num
    rw [ProdNode.run_ai_analysis_packet, if_pos h16, ProdNode.tags_send_packet]
  · have h14 : ¬ ((mics100_14.countP (ProdNode.positive_window idStages) : ℚ)
        > (mics100_14.length : ℚ) * (15 / 100)) := by
      rw [count_14, len_14]; norm_num
    rw [ProdNode.run_ai_analysis_packet, if_neg h14, ProdNode.tags_send_packet]

/-- C2: one analysis window of the voting classifier increments the
chainsaw vote count by exactly one when and only when the low-band (engine)
energy of the window's EnergyProfile exceeds the absolute floor 50000 AND
exceeds twice the high-band (nature) energy; in every other case the
chainsaw count is unchanged (while the window is still counted). -/
theorem C2_vote_condition (L : FFTStages) (mic : ℕ → ℚ)
    (s : ProdNode.DeviceState) :
    (ProdNode.vote_update s (window_profile L mic)).chainsaw_votes
        = s.chainsaw_votes +
          (if (window_profile L mic).1 > 50000 ∧
              (window_profile L mic).1 > (window_profile L mic).2 * 2
            then 1 else 0) ∧
      (ProdNode.vote_update s (window_profile L mic)).total_samples
        = s.total_samples + 1 :=
  ProdNode.vote_update_counts s (window_profile L mic)

/-- C3: with F = 6000 and N = 512 the lower edge of bin 51 is
51·6000/512 = 597.65625 Hz, inside the 100–600 Hz low band, so the band
maps to bins 8–51 inclusive (as the code's own comment states); but the
loop `for (i = 8; i < 51)` excludes bin 51: on a buffer whose only energy
sits in bin 51 the code computes low-band energy 0 while the inclusive band
sum of the spec is 100. -/
theorem C3_bin51_excluded :
    engine_energy bin51_buf = 0 ∧
    low_band_energy_spec bin51_buf = 100 ∧
    engine_energy bin51_buf ≠ low_band_energy_spec bin51_buf ∧
    (100 : ℚ) ≤ bin_freq 51 ∧ bin_freq 51 < 600 := by
  have h1 : engine_energy bin51_buf = 0 := by
    unfold engine_energy bin51_buf
    exact Finset.sum_eq_zero fun i hi =>
      if_neg (by have := (Finset.mem_Ico.mp hi).2; omega)
  have h2 : low_band_energy_spec bin51_buf = 100 := by
    unfold low_band_energy_spec bin51_buf
    rw [Finset.sum_ite_eq' (Finset.Icc 8 51) 51 fun _ => (100 : ℚ)]
    simp
  refine ⟨h1, h2, by rw [h1, h2]; norm_num, ?_, ?_⟩ <;>
  · unfold bin_freq SAMPLING_FREQ SAMPLES
    norm_num

/-- C4: in the V2 firmware, a vibration-triggered episode whose 100-read
vibration window counts more than 5 active reads transmits the single
CLIMBING alert and ends the episode (deep sleep) without ever invoking the
audio sampler or the spectral analyzer. -/
theorem C4_vibration_short_circuit (reads : Fin 100 → Bool) (mic : ℕ → ℚ)
    (L : FFTStages) (h : FirmV2.climb_hits reads > 5) :
    FirmV2.setup true WakeCause.ext0 reads mic L =
      { sent := [FirmV2.send_lora_alert "CLIMBING"], ran_audio := false,
        halted := false } := by
  simp [FirmV2.setup, FirmV2.IS_GATEWAY, FirmV2.analyze_environment, h]

/-- C4 witness: a concrete vibration window with exactly 6 of its 100 reads
active triggers the CLIMBING short-circuit. -/
theorem C4_vibration_short_circuit_witness :
    FirmV2.climb_hits FirmV2.reads_six > 5 ∧
    FirmV2.setup true WakeCause.ext0 FirmV2.reads_six mic_zero idStages =
      { sent := [FirmV2.send_lora_alert "CLIMBING"], ran_audio := false,
        halted := false } :=
  ⟨by decide, C4_vibration_short_circuit FirmV2.reads_six mic_zero idStages
    (by decide)⟩

/-- C5 counterexample: in the V2 firmware, a cold boot with the radio
online transmits nothing at all — in particular no HEARTBEAT packet — so
the claim's "transmits a single HEARTBEAT packet" fails on this variant. -/
theorem C5_cold_boot_counterexample :
    (FirmV2.setup true WakeCause.coldBoot FirmV2.reads_none mic_zero
        idStages).sent = [] ∧
      (FirmV2.setup true WakeCause.coldBoot FirmV2.reads_none mic_zero
        idStages).sent.length ≠ 1 :=
  ⟨rfl, by decide⟩

/-- C5 (amended): on a cold boot with successful radio initialization,
neither variant runs classification or enters MONITORING; the production
node variant (`part_002`) transmits exactly one HEARTBEAT packet before
returning to dormant, while the V2 firmware transmits nothing. -/
theorem C5_cold_boot_amended (L : FFTStages) (mics : List (ℕ → ℚ))
    (s : ProdNode.DeviceState) (ms bat : ℕ) (reads : Fin 100 → Bool)
    (mic : ℕ → ℚ) :
    (ProdNode.setup L true WakeCause.coldBoot mics s ms bat).sent
        = [ProdNode.send_packet ms bat "HEARTBEAT"] ∧
      (ProdNode.setup L true WakeCause.coldBoot mics s ms bat).ran_audio
        = false ∧
      PowerState.MONITORING ∉
        (ProdNode.setup L true WakeCause.coldBoot mics s ms bat).trace ∧
      FirmV2.setup true WakeCause.coldBoot reads mic L =
        { sent := [], ran_audio := false, halted := false } :=
  ⟨rfl, rfl,
    by
      show PowerState.MONITORING ∉ [PowerState.BOOTING,
        PowerState.TRANSMITTING, PowerState.DORMANT]
      decide,
    rfl⟩

/-- C6 counterexample: the CLIMBING frame actually transmitted by a V2
vibration episode is `NODE_ID + "," + type` — it contains neither a
timestamp/counter field nor a battery-voltage field. -/
theorem C6_frame_counterexample :
    (FirmV2.setup true WakeCause.ext0 FirmV2.reads_six mic_zero
        idStages).sent = [FirmV2.send_lora_alert "CLIMBING"] ∧
      ((FirmV2.send_lora_alert "CLIMBING").fields.all
        fun f => !(f.isBattery || f.isCounter)) = true := by
  constructor
  · simp [FirmV2.setup, FirmV2.IS_GATEWAY, FirmV2.analyze_environment,
      show FirmV2.climb_hits FirmV2.reads_six > 5 by decide]
  · rfl

/-- C6 (amended): every frame the production node variant (`part_002`)
transmits carries a millis counter, the node identity, a verdict tag and
the battery voltage as delimited fields; the V2 firmware's frames carry
only the node identity and the verdict tag. -/
theorem C6_frame_fields_amended :
    (∀ (L : FFTStages) (loraOk : Bool) (wake : WakeCause)
        (mics : List (ℕ → ℚ)) (s : ProdNode.DeviceState) (ms bat : ℕ),
      ∀ p ∈ (ProdNode.setup L loraOk wake mics s ms bat).sent,
        p.fields.any Field.isCounter = true ∧
        p.fields.any Field.isNode = true ∧
        p.fields.any Field.isTag = true ∧
        p.fields.any Field.isBattery = true) ∧
    (∀ t, (FirmV2.send_lora_alert t).fields
        = [Field.node FirmV2.NODE_ID, Field.tag t]) := by
  refine ⟨?_, fun t => rfl⟩
  intro L loraOk wake mics s ms bat p hp
  cases loraOk with
  | false => simp [ProdNode.setup] at hp
  | true =>
      cases wake with
      | ext0 =>
          simp [ProdNode.setup] at hp
          rw [hp, ProdNode.run_ai_analysis_packet]
          exact ⟨rfl, rfl, rfl, rfl⟩
      | coldBoot =>
          simp [ProdNode.setup] at hp
          rw [hp]
          exact ⟨rfl, rfl, rfl, rfl⟩

/-- C6 witness: the HEARTBEAT frame of a concrete cold-boot episode of the
production node variant carries all four field kinds. -/
theorem C6_frame_fields_amended_witness :
    (ProdNode.send_packet 0 0 "HEARTBEAT").fields.any Field.isCounter = true ∧
    (ProdNode.send_packet 0 0 "HEARTBEAT").fields.any Field.isNode = true ∧
    (ProdNode.send_packet 0 0 "HEARTBEAT").fields.any Field.isTag = true ∧
    (ProdNode.send_packet 0 0 "HEARTBEAT").fields.any Field.isBattery = true :=
  C6_frame_fields_amended.1 idStages true WakeCause.coldBoot []
    ProdNode.s_init 0 0 (ProdNode.send_packet 0 0 "HEARTBEAT")
    (by simp [ProdNode.setup])

/-- C7: if the LoRa radio fails to initialize at boot, both firmware
variants halt for that boot cycle with no sampling, classification or
transmission; and an episode proceeds past boot (is not halted) exactly
when the radio initialized successfully. -/
theorem C7_radio_init_fatal :
    (∀ (L : FFTStages) (wake : WakeCause) (mics : List (ℕ → ℚ))
        (s : ProdNode.DeviceState) (ms bat : ℕ),
      ProdNode.setup L false wake mics s ms bat =
        { halted := true, sent := [], ran_audio := false,
          trace := [PowerState.BOOTING] }) ∧
    (∀ (wake : WakeCause) (reads : Fin 100 → Bool) (mic : ℕ → ℚ)
        (L : FFTStages),
      FirmV2.setup false wake reads mic L =
        { sent := [], ran_audio := false, halted := true }) ∧
    (∀ (L : FFTStages) (loraOk : Bool) (wake : WakeCause)
        (mics : List (ℕ → ℚ)) (s : ProdNode.DeviceState) (ms bat : ℕ),
      (ProdNode.setup L loraOk wake mics s ms bat).halted = !loraOk) ∧
    (∀ (loraOk : Bool) (wake : WakeCause) (reads : Fin 100 → Bool)
        (mic : ℕ → ℚ) (L : FFTStages),
      (FirmV2.setup loraOk wake reads mic L).halted = !loraOk) := by
  refine ⟨fun L wake mics s ms bat => rfl, fun wake reads mic L => rfl,
    ?_, ?_⟩
  · intro L loraOk wake mics s ms bat
    cases loraOk with
    | false => rfl
    | true => cases wake <;> rfl
  · intro loraOk wake reads mic L
    cases loraOk with
    | false => rfl
    | true =>
        cases wake with
        | coldBoot => rfl
        | ext0 =>
            rcases FirmV2.analyze_cases true reads mic L with h | h | h <;>
              simp [FirmV2.setup, FirmV2.IS_GATEWAY, h]

/-- C8: each wake episode of either firmware variant transmits at most one
packet; no episode performs a second transmission before returning to
sleep. -/
theorem C8_at_most_one_packet :
    (∀ (L : FFTStages) (loraOk : Bool) (wake : WakeCause)
        (mics : List (ℕ → ℚ)) (s : ProdNode.DeviceState) (ms bat : ℕ),
      (ProdNode.setup L loraOk wake mics s ms bat).sent.length ≤ 1) ∧
    (∀ (loraOk : Bool) (wake : WakeCause) (reads : Fin 100 → Bool)
        (mic : ℕ → ℚ) (L : FFTStages),
      (FirmV2.setup loraOk wake reads mic L).sent.length ≤ 1) := by
  constructor
  · intro L loraOk wake mics s ms bat
    cases loraOk with
    | false => simp [ProdNode.setup]
    | true => cases wake <;> simp [ProdNode.setup]
  · intro loraOk wake reads mic L
    cases loraOk with
    | false => simp [FirmV2.setup]
    | true =>
        cases wake with
        | coldBoot => simp [FirmV2.setup, FirmV2.IS_GATEWAY]
        | ext0 =>
            rcases FirmV2.analyze_cases true reads mic L with h | h | h <;>
              simp [FirmV2.setup, FirmV2.IS_GATEWAY, h]

/-- C9: the spectral analyzer is a pure function of the sampled buffer:
analyzing the same SampleBuffer contents a second time — even after the
first analysis has overwritten the global `vReal`/`vImag` buffers — yields
the identical EnergyProfile, and the profile of a window depends only on
the sampled contents, not on any other device state. -/
theorem C9_spectral_analyzer_pure (L : FFTStages) (mic : ℕ → ℚ)
    (s s' : ProdNode.DeviceState) :
    (ProdNode.analyze_window L (ProdNode.sample_audio mic s)).2
        = (ProdNode.analyze_window L (ProdNode.sample_audio mic
            ((ProdNode.analyze_window L (ProdNode.sample_audio mic s')).1))).2 ∧
      ∀ t : ProdNode.DeviceState,
        (ProdNode.analyze_window L (ProdNode.sample_audio mic t)).2
          = window_profile L mic :=
  ⟨rfl, fun _ => rfl⟩

/-- C10: in the 30-second monitoring variant, every vibration-triggered
episode with the radio online transmits exactly one packet — CHAINSAW when
the chainsaw votes exceed 15% of the windows, TREE_FALL in every other
case, including an episode whose tally is zero; no outcome suppresses the
transmission. -/
theorem C10_always_transmits (L : FFTStages) (mics : List (ℕ → ℚ))
    (s : ProdNode.DeviceState) (ms bat : ℕ) :
    (ProdNode.setup L true WakeCause.ext0 mics s ms bat).sent
        = [ProdNode.send_packet ms bat
            (if (mics.countP (ProdNode.positive_window L) : ℚ)
                > (mics.length : ℚ) * (15 / 100)
              then "CHAINSAW" else "TREE_FALL")] ∧
      (ProdNode.setup L true WakeCause.ext0 mics s ms bat).sent.length = 1 ∧
      (ProdNode.setup L true WakeCause.ext0 [] s ms bat).sent
        = [ProdNode.send_packet ms bat "TREE_FALL"] := by
  have h1 : (ProdNode.setup L true WakeCause.ext0 mics s ms bat).sent
      = [(ProdNode.run_ai_analysis L mics s ms bat).2] := rfl
  refine ⟨?_, ?_, ?_⟩
  · rw [h1, ProdNode.run_ai_analysis_packet]
  · rw [h1]; rfl
  · rw [show (ProdNode.setup L true WakeCause.ext0 [] s ms bat).sent
        = [(ProdNode.run_ai_analysis L [] s ms bat).2] from rfl,
      ProdNode.run_ai_analysis_packet]
    simp

end EcoGrid
